import Mathlib

/-! # Account, save-slot and monster-inventory backend

A shallow embedding of `backend/index.js`: the three tables behind the
connection pool become lists of rows in a `Store`, every SQL statement becomes
a list operation, and every Express handler becomes a function from the store
and the request to the new store and the HTTP response.

Conventions of the embedding:

* a handler is modelled from the point where `pool` is known to be configured
  (the `!pool` guard answers 503 without looking at any table);
* `NOW()` and the column defaults `CURRENT_TIMESTAMP` are the argument `now`;
* `crypto.createHash('sha256')` is the argument `hashPassword`, a function on
  strings, and the random bytes of `generateToken` are the argument `token`;
* JSON numbers are integers, floating point is not represented;
* `JSON.stringify` of a parsed body followed by the read of a JSON column is
  the identity on documents, so a `data` column holds a `Json` value.
-/

namespace Backend

/-! ## JSON values and the JavaScript operators the handlers apply to them -/

/-- A parsed JSON document, as `express.json()` hands it to a handler. -/
inductive Json where
  | null : Json
  | bool (b : Bool) : Json
  | num (n : Int) : Json
  | str (s : String) : Json
  | arr (xs : List Json) : Json
  | obj (members : List (String × Json)) : Json

/-- Member access `v.key`. `none` is the JavaScript `undefined`: the member is
absent or `v` is not an object. As in `JSON.parse`, the last of several
members with one key wins. -/
def Json.member (v : Json) (key : String) : Option Json :=
  match v with
  | .obj members => (members.reverse.find? (fun kv => kv.1 == key)).map Prod.snd
  | _ => none

/-- JavaScript truthiness of a JSON value: `null`, `false`, `0` and `""` are
falsy, everything else (every array and object included) is truthy. -/
def Json.truthy : Json → Bool
  | .null => false
  | .bool b => b
  | .num n => n != 0
  | .str s => s != ""
  | .arr _ => true
  | .obj _ => true

/-- The operand test `!x` on a possibly `undefined` value. -/
def falsy : Option Json → Bool
  | none => true
  | some v => !v.truthy

/-- The operator `x || null` the monster handler applies to optional members. -/
def orNull : Option Json → Json
  | none => .null
  | some v => if v.truthy then v else .null

/-- The `length` of a JavaScript string: its number of UTF-16 code units, two
for a character outside the basic multilingual plane. -/
def jsLength (s : String) : Nat :=
  (s.data.map (fun c => if c.val.toNat < 65536 then 1 else 2)).sum

/-- The property `v.length`, `none` for `undefined`. Strings and arrays have a
length; numbers, booleans and `null` that reach this point have none. An
object has the member it carries under that name when this is a number (a
member of another type would be compared through string-to-number conversion,
which is not represented here). -/
def Json.length? : Json → Option Int
  | .str s => some (jsLength s)
  | .arr xs => some xs.length
  | .obj members =>
    match Json.member (.obj members) "length" with
    | some (.num n) => some n
    | _ => none
  | _ => none

/-- The comparison `x.length < k`: false when the length is `undefined`. -/
def lengthLt (v : Json) (k : Int) : Bool :=
  match v.length? with
  | some n => decide (n < k)
  | none => false

/-- The comparison `x.length > k`: false when the length is `undefined`. -/
def lengthGt (v : Json) (k : Int) : Bool :=
  match v.length? with
  | some n => decide (k < n)
  | none => false

/-! ## The tables -/

/-- Modelled from the spec: a row of the `User` table, whose declaration is
not part of the sources; the columns are those the statements name. -/
structure UserRow where
  id : Nat
  username : String
  password : String
  isAdmin : Bool
  createdAt : Nat
  updatedAt : Nat
deriving DecidableEq, Repr

/-- Modelled from the spec: a row of the `GameSave` table, whose declaration is
not part of the sources; `data` is a JSON column, read back as the document
that was written, and the two timestamps are filled in by the database. -/
structure GameSaveRow where
  id : Nat
  userId : Nat
  slot : Int
  data : Json
  createdAt : Nat
  updatedAt : Nat

/-- Modelled from the spec: a row of the `Monster` table, whose declaration is
not part of the sources. A scalar column holds the parameter that was bound
to it, `Json.null` for SQL `NULL`; `data` is a JSON column and `createdAt` is
filled in by the database. -/
structure MonsterRow where
  id : Nat
  userId : Nat
  name : Json
  element : Json
  description : Json
  imageUrl : Json
  modelUrl : Json
  visualPrompt : Json
  data : Json
  createdAt : Nat

/-- The database behind the pool. `hasIsAdmin` tells whether the `User` table
has the `isAdmin` column (the handlers repair a table that lacks it); while it
is false the `isAdmin` field of the rows is not stored anywhere and carries no
meaning. The three counters are the `AUTO_INCREMENT` values. -/
structure Store where
  users : List UserRow
  saves : List GameSaveRow
  monsters : List MonsterRow
  hasIsAdmin : Bool
  nextUserId : Nat
  nextSaveId : Nat
  nextMonsterId : Nat

/-- An HTTP answer: `res.status(status).json(body)`. -/
structure Response where
  status : Nat
  body : Json

/-- The body `{ error: msg }` of the error answers. -/
def errorBody (msg : String) : Json :=
  .obj [("error", .str msg)]

/-- The body `{ error: msg, message: error.message }` of the 500 answers of
the save and monster handlers. -/
def failureBody (msg detail : String) : Json :=
  .obj [("error", .str msg), ("message", .str detail)]

/-- A timestamp column in a JSON answer. -/
def timeJson (t : Nat) : Json :=
  .num t

/-! ## Statements shared by the handlers -/

/-- Modelled from the spec: the comparison of the `username` column, whose
declaration (type and collation) is not part of the sources; the lookup is a
case-sensitive exact match. -/
def usernameMatches (column param : String) : Bool :=
  column == param

/-- The query `SELECT ... FROM User WHERE username = ? LIMIT 1`: the first
matching row in table order. -/
def findUser (st : Store) (username : String) : Option UserRow :=
  st.users.find? (fun u => usernameMatches u.username username)

/-- The condition `userId = ? AND slot = ?` on a `GameSave` row. -/
def saveMatches (userId : Nat) (slot : Int) (s : GameSaveRow) : Bool :=
  s.userId == userId && s.slot == slot

/-- The message MySQL gives for the literal `NaN`, which `parseInt` yields for
a slot that does not start with a number. -/
def nanMessage : String :=
  "Unknown column 'NaN' in 'where clause'"

/-! ## Save slots -/

/-- The handler `GET /api/saves/:username/:slot`. The argument `slotNum` is the
value of `parseInt(slot)`, `none` for `NaN`. -/
def getSave (st : Store) (username : String) (slotNum : Option Int) :
    Store × Response :=
  match findUser st username with
  | none => (st, ⟨404, errorBody "用户不存在"⟩)
  | some user =>
    match slotNum with
    | none => (st, ⟨500, failureBody "读取存档失败" nanMessage⟩)
    | some slot =>
      match st.saves.find? (saveMatches user.id slot) with
      | none => (st, ⟨404, errorBody "存档不存在"⟩)
      | some save =>
        (st, ⟨200, .obj [("success", .bool true), ("data", save.data),
                         ("updatedAt", timeJson save.updatedAt)]⟩)

/-- The statement `UPDATE GameSave SET data = ? WHERE userId = ? AND slot = ?`;
the column `updatedAt` follows the update. -/
def updateSaves (saves : List GameSaveRow) (userId : Nat) (slot : Int)
    (data : Json) (now : Nat) : List GameSaveRow :=
  saves.map (fun s =>
    if saveMatches userId slot s then { s with data := data, updatedAt := now } else s)

/-- The handler `POST /api/saves/:username/:slot`. The argument `slotNum` is
the value of `parseInt(slot)`, `none` for `NaN`; `saveData` is `req.body`. -/
def postSave (st : Store) (username : String) (slotNum : Option Int)
    (saveData : Json) (now : Nat) : Store × Response :=
  match findUser st username with
  | none => (st, ⟨404, errorBody "用户不存在，请先注册"⟩)
  | some user =>
    match slotNum with
    | none => (st, ⟨500, failureBody "保存存档失败" nanMessage⟩)
    | some slot =>
      if (st.saves.find? (saveMatches user.id slot)).isSome then
        ({ st with saves := updateSaves st.saves user.id slot saveData now },
         ⟨200, .obj [("success", .bool true), ("message", .str "存档保存成功")]⟩)
      else
        ({ st with
            saves := st.saves ++ [⟨st.nextSaveId, user.id, slot, saveData, now, now⟩],
            nextSaveId := st.nextSaveId + 1 },
         ⟨200, .obj [("success", .bool true), ("message", .str "存档保存成功")]⟩)

/-! ## Accounts -/

/-- The function `verifyPassword`: recompute the digest and compare. -/
def verifyPassword (hashPassword : String → String) (password hash : String) : Bool :=
  hashPassword password == hash

/-- The validation at the head of `POST /api/auth/register`, on the two members
of the body as parsed (`none` for an absent member): the 400 answer it gives,
or `none` when the handler goes on. -/
def registerValidate (username password : Option Json) : Option Response :=
  match username, password with
  | some u, some p =>
    if !u.truthy || !p.truthy then
      some ⟨400, errorBody "用户名和密码不能为空"⟩
    else if lengthLt u 3 || lengthGt u 20 then
      some ⟨400, errorBody "用户名长度必须在 3-20 个字符之间"⟩
    else if lengthLt p 6 then
      some ⟨400, errorBody "密码长度至少为 6 个字符"⟩
    else none
  | _, _ => some ⟨400, errorBody "用户名和密码不能为空"⟩

/-- The statement `ALTER TABLE User ADD COLUMN isAdmin TINYINT(1) NOT NULL
DEFAULT 0`: every row gets the default. On a table that has the column the
statement fails and the handlers ignore the failure. -/
def addIsAdminColumn (st : Store) : Store :=
  if st.hasIsAdmin then st
  else { st with users := st.users.map (fun u => { u with isAdmin := false }),
                 hasIsAdmin := true }

/-- The statement `INSERT INTO User (username, password, isAdmin, createdAt,
updatedAt) VALUES (?, ?, isAdmin, NOW(), NOW())` on a table with the column. -/
def insertUser (st : Store) (username hash : String) (isAdmin : Bool) (now : Nat) : Store :=
  { st with users := st.users ++ [⟨st.nextUserId, username, hash, isAdmin, now, now⟩],
            nextUserId := st.nextUserId + 1 }

/-- The body of the 201 answer of register. -/
def registeredBody (token username : String) (userId : Nat) : Json :=
  .obj [("success", .bool true), ("message", .str "注册成功"), ("token", .str token),
        ("username", .str username), ("userId", .num userId)]

/-- The handler `POST /api/auth/register` for a body whose two members are
strings. When the `INSERT` fails for want of the `isAdmin` column the handler
rolls back, adds the column and inserts again. -/
def register (st : Store) (hashPassword : String → String) (token : String)
    (username password : String) (now : Nat) : Store × Response :=
  match registerValidate (some (.str username)) (some (.str password)) with
  | some answer => (st, answer)
  | none =>
    match findUser st username with
    | some _ => (st, ⟨409, errorBody "用户名已存在"⟩)
    | none =>
      let passwordHash := hashPassword password
      if st.hasIsAdmin then
        (insertUser st username passwordHash false now,
         ⟨201, registeredBody token username st.nextUserId⟩)
      else
        (insertUser (addIsAdminColumn st) username passwordHash false now,
         ⟨201, registeredBody token username st.nextUserId⟩)

/-- The handler `POST /api/auth/login` for a body whose two members are
strings. The lookup reads `isAdmin`: on a table without the column it fails,
the handler adds the column and looks up again. -/
def login (st : Store) (hashPassword : String → String) (token : String)
    (username password : String) : Store × Response :=
  if falsy (some (.str username)) || falsy (some (.str password)) then
    (st, ⟨400, errorBody "用户名和密码不能为空"⟩)
  else
    let st1 := if st.hasIsAdmin then st else addIsAdminColumn st
    match findUser st1 username with
    | none => (st1, ⟨401, errorBody "用户名或密码错误"⟩)
    | some user =>
      if !verifyPassword hashPassword password user.password then
        (st1, ⟨401, errorBody "用户名或密码错误"⟩)
      else
        (st1, ⟨200, .obj [("success", .bool true), ("message", .str "登录成功"),
                          ("token", .str token), ("username", .str user.username),
                          ("userId", .num user.id), ("isAdmin", .bool user.isAdmin)]⟩)

/-- The digest `hashPassword(password)` of a JSON value: `crypto` hashes a
string and throws a `TypeError` (`none`) for a value of any other JSON type. -/
def hashJson (hashPassword : String → String) (password : Json) : Option String :=
  match password with
  | .str s => some (hashPassword s)
  | _ => none

/-- The handler `POST /api/auth/login` for a body whose username is a string
and whose password is any JSON value (`none` for an absent member). A truthy
password that is not a string passes the presence test; for an unknown user
the handler answers 401 before any digest is computed, and for a known user
`verifyPassword` throws in `hashPassword`, which the handler catches and
answers with 500. `thrown` is the message of that error. -/
def loginBody (st : Store) (hashPassword : String → String) (token thrown : String)
    (username : String) (password : Option Json) : Store × Response :=
  if falsy (some (.str username)) || falsy password then
    (st, ⟨400, errorBody "用户名和密码不能为空"⟩)
  else
    let st1 := if st.hasIsAdmin then st else addIsAdminColumn st
    match findUser st1 username with
    | none => (st1, ⟨401, errorBody "用户名或密码错误"⟩)
    | some user =>
      match password.bind (hashJson hashPassword) with
      | none =>
        (st1, ⟨500, .obj [("error", .str "登录失败"), ("message", .str thrown),
                          ("code", .str "ERR_INVALID_ARG_TYPE")]⟩)
      | some digest =>
        if !(digest == user.password) then
          (st1, ⟨401, errorBody "用户名或密码错误"⟩)
        else
          (st1, ⟨200, .obj [("success", .bool true), ("message", .str "登录成功"),
                            ("token", .str token), ("username", .str user.username),
                            ("userId", .num user.id), ("isAdmin", .bool user.isAdmin)]⟩)

/-- The message of the error `crypto` throws for the number 123456. -/
def sampleTypeError : String :=
  "The \"data\" argument must be of type string or an instance of Buffer, TypedArray, or DataView. Received type number (123456)"

/-- The statement `UPDATE User SET password = ?, updatedAt = NOW() WHERE
username = ?`. -/
def updatePassword (users : List UserRow) (username hash : String) (now : Nat) :
    List UserRow :=
  users.map (fun u =>
    if usernameMatches u.username username then { u with password := hash, updatedAt := now }
    else u)

/-- The message MySQL gives for a statement that names the absent column. -/
def badFieldMessage : String :=
  "Unknown column 'isAdmin' in 'field list'"

/-- The handler `POST /api/auth/admin/reset-password` for a body whose four
members are strings. Its lookup of the administrator reads `isAdmin` and has
no recovery: on a table without the column the query fails and the handler
answers 500. -/
def adminResetPassword (st : Store) (hashPassword : String → String)
    (username newPassword adminUsername adminPassword : String) (now : Nat) :
    Store × Response :=
  if falsy (some (.str username)) || falsy (some (.str newPassword))
      || falsy (some (.str adminUsername)) || falsy (some (.str adminPassword)) then
    (st, ⟨400, errorBody "请提供 username、newPassword、adminUsername、adminPassword"⟩)
  else if lengthLt (.str newPassword) 6 then
    (st, ⟨400, errorBody "新密码长度至少为 6 个字符"⟩)
  else if !st.hasIsAdmin then
    (st, ⟨500, failureBody "重置失败" badFieldMessage⟩)
  else
    match findUser st adminUsername with
    | none => (st, ⟨403, errorBody "管理员账号或密码错误，或该账号不是管理员"⟩)
    | some admin =>
      if !verifyPassword hashPassword adminPassword admin.password || !admin.isAdmin then
        (st, ⟨403, errorBody "管理员账号或密码错误，或该账号不是管理员"⟩)
      else
        match findUser st username with
        | none => (st, ⟨404, errorBody "要重置的用户不存在"⟩)
        | some _ =>
          ({ st with users := updatePassword st.users username (hashPassword newPassword) now },
           ⟨200, .obj [("success", .bool true), ("message", .str "密码已重置")]⟩)

/-! ## Monster inventory -/

/-- The comparison `JSON_EXTRACT(data, "$.id") = ?` of a stored document with
the bound `monsterData.id`. An absent or `null` parameter is bound as SQL
`NULL` and equals nothing; a document without the member extracts to `NULL`.
Strings compare with strings and numbers with numbers. -/
def clientIdMatches (param : Option Json) (data : Json) : Bool :=
  match data.member "id", param with
  | some (.str a), some (.str b) => a == b
  | some (.num a), some (.num b) => a == b
  | _, _ => false

/-- The condition `userId = ? AND JSON_EXTRACT(data, "$.id") = ?` on a row. -/
def monsterMatches (userId : Nat) (param : Option Json) (m : MonsterRow) : Bool :=
  m.userId == userId && clientIdMatches param m.data

/-- The `UPDATE Monster SET name = ?, element = ?, description = ?, imageUrl =
?, modelUrl = ?, visualPrompt = ?, data = ? WHERE ...` of the upsert. A member
the body lacks is bound as `undefined`, which the driver writes as `NULL`. -/
def updateMonsters (monsters : List MonsterRow) (userId : Nat) (monsterData : Json) :
    List MonsterRow :=
  monsters.map (fun m =>
    if monsterMatches userId (monsterData.member "id") m then
      { m with
          name := (monsterData.member "name").getD .null,
          element := (monsterData.member "element").getD .null,
          description := orNull (monsterData.member "description"),
          imageUrl := orNull (monsterData.member "imageUrl"),
          modelUrl := orNull (monsterData.member "modelUrl"),
          visualPrompt := orNull (monsterData.member "visualPrompt"),
          data := monsterData }
    else m)

/-- The row the `INSERT INTO Monster (...)` of the upsert creates. -/
def newMonster (id userId : Nat) (monsterData : Json) (now : Nat) : MonsterRow :=
  { id := id, userId := userId,
    name := (monsterData.member "name").getD .null,
    element := (monsterData.member "element").getD .null,
    description := orNull (monsterData.member "description"),
    imageUrl := orNull (monsterData.member "imageUrl"),
    modelUrl := orNull (monsterData.member "modelUrl"),
    visualPrompt := orNull (monsterData.member "visualPrompt"),
    data := monsterData,
    createdAt := now }

/-- The handler `POST /api/monsters/:username`; `monsterData` is `req.body`. -/
def postMonster (st : Store) (username : String) (monsterData : Json) (now : Nat) :
    Store × Response :=
  if username == "" then
    (st, ⟨400, errorBody "缺少用户名"⟩)
  else if !monsterData.truthy || falsy (monsterData.member "name")
      || falsy (monsterData.member "element") then
    (st, ⟨400, errorBody "精灵数据不完整"⟩)
  else
    match findUser st username with
    | none => (st, ⟨404, errorBody "用户不存在"⟩)
    | some user =>
      match st.monsters.find? (monsterMatches user.id (monsterData.member "id")) with
      | some existing =>
        ({ st with monsters := updateMonsters st.monsters user.id monsterData },
         ⟨200, .obj [("success", .bool true), ("message", .str "精灵已更新"),
                     ("monsterId", .num existing.id)]⟩)
      | none =>
        ({ st with
            monsters := st.monsters ++ [newMonster st.nextMonsterId user.id monsterData now],
            nextMonsterId := st.nextMonsterId + 1 },
         ⟨201, .obj [("success", .bool true), ("message", .str "精灵已保存"),
                     ("monsterId", .num st.nextMonsterId)]⟩)

/-- The order `ORDER BY createdAt DESC`: `a` may stand before `b`. -/
def newerFirst (a b : MonsterRow) : Prop :=
  b.createdAt ≤ a.createdAt

instance newerFirstDecidable : DecidableRel newerFirst :=
  fun a b => inferInstanceAs (Decidable (b.createdAt ≤ a.createdAt))

/-- The projection `SELECT id, name, element, description, imageUrl, data,
createdAt` of the list query, as the JSON object of one row. -/
def monsterJson (m : MonsterRow) : Json :=
  .obj [("id", .num m.id), ("name", m.name), ("element", m.element),
        ("description", m.description), ("imageUrl", m.imageUrl),
        ("data", m.data), ("createdAt", timeJson m.createdAt)]

/-- The rows of `SELECT ... FROM Monster WHERE userId = ? ORDER BY createdAt
DESC`. Rows of one creation time keep their table order. -/
def selectMonsters (st : Store) (userId : Nat) : List MonsterRow :=
  (st.monsters.filter (fun m => m.userId == userId)).insertionSort newerFirst

/-- The handler `GET /api/monsters/:username`. -/
def getMonsters (st : Store) (username : String) : Store × Response :=
  if username == "" then
    (st, ⟨400, errorBody "缺少用户名"⟩)
  else
    match findUser st username with
    | none => (st, ⟨404, errorBody "用户不存在"⟩)
    | some user =>
      (st, ⟨200, .obj [("success", .bool true),
                       ("monsters", .arr ((selectMonsters st user.id).map monsterJson))]⟩)

/-- The `monsters` array of an answer, empty when the answer has none. -/
def monstersOf (r : Response) : List Json :=
  match r.body.member "monsters" with
  | some (.arr xs) => xs
  | _ => []

/-- The number of rows of the `Monster` table that belong to a user. -/
def monsterCount (st : Store) (userId : Nat) : Nat :=
  (st.monsters.filter (fun m => m.userId == userId)).length

instance newerFirstTotal : IsTotal MonsterRow newerFirst :=
  ⟨fun a b => Nat.le_total b.createdAt a.createdAt⟩

instance newerFirstTrans : IsTrans MonsterRow newerFirst :=
  ⟨fun _ _ _ hab hbc => Nat.le_trans hbc hab⟩

/-- A request body "carries name and element": it passes the completeness
test of the upsert handler. -/
def carriesNameElement (monsterData : Json) : Prop :=
  falsy (monsterData.member "name") = false ∧ falsy (monsterData.member "element") = false

instance carriesNameElementDecidable (monsterData : Json) :
    Decidable (carriesNameElement monsterData) :=
  inferInstanceAs (Decidable (_ ∧ _))

/-- A first upsert body for the worked instances. -/
def sampleMonster1 : Json :=
  .obj [("id", .str "m9"), ("name", .str "Leafy"), ("element", .str "grass"),
        ("description", .str "a leaf")]

/-- A second upsert body with the same client id and an empty description. -/
def sampleMonster2 : Json :=
  .obj [("id", .str "m9"), ("name", .str "Leafy II"), ("element", .str "grass"),
        ("description", .str "")]

/-! ## Sample data for the worked instances -/

/-- A stand-in digest for the worked instances (any function on strings will do). -/
def sampleHash (password : String) : String :=
  "sha:" ++ password

/-- A store with one administrator and one player, one save and two monsters. -/
def sampleStore : Store :=
  { users := [⟨1, "root", sampleHash "rootpass", true, 10, 10⟩,
              ⟨2, "alice01", sampleHash "secret1", false, 20, 20⟩],
    saves := [⟨1, 2, 0, .obj [("level", .num 3)], 30, 30⟩],
    monsters := [⟨1, 2, .str "Sparky", .str "fire", .null, .null, .str "sparky.glb",
                  .str "a small spark", .obj [("id", .str "m1"), ("name", .str "Sparky"),
                  ("element", .str "fire"), ("modelUrl", .str "sparky.glb"),
                  ("visualPrompt", .str "a small spark")], 40⟩,
                 ⟨2, 2, .str "Drop", .str "water", .str "a drop", .null, .null, .null,
                  .obj [("id", .str "m2"), ("name", .str "Drop"), ("element", .str "water"),
                  ("description", .str "a drop")], 50⟩],
    hasIsAdmin := true,
    nextUserId := 3, nextSaveId := 2, nextMonsterId := 3 }

/-- The sample store before the `isAdmin` column was added to its `User` table. -/
def legacyStore : Store :=
  { sampleStore with
      users := [⟨1, "root", sampleHash "rootpass", false, 10, 10⟩,
                ⟨2, "alice01", sampleHash "secret1", false, 20, 20⟩],
      hasIsAdmin := false }

/-! ## Save-slot uniqueness -/

/-- Two `GameSave` rows for one `(userId, slot)` pair. -/
def sameSlot (a b : GameSaveRow) : Prop :=
  a.userId = b.userId ∧ a.slot = b.slot

instance sameSlotDecidable : DecidableRel sameSlot :=
  fun a b => inferInstanceAs (Decidable (a.userId = b.userId ∧ a.slot = b.slot))

/-- The store holds at most one `GameSave` row for every `(userId, slot)` pair. -/
def SlotUnique (st : Store) : Prop :=
  st.saves.Pairwise (fun a b => ¬ sameSlot a b)

instance slotUniqueDecidable (st : Store) : Decidable (SlotUnique st) :=
  inferInstanceAs (Decidable (st.saves.Pairwise (fun a b => ¬ sameSlot a b)))

/-! ## Admin bootstrap -/

/-- The statement `UPDATE User SET isAdmin = 1 WHERE username = ?`. -/
def grantAdmin (users : List UserRow) (username : String) : List UserRow :=
  users.map (fun u =>
    if usernameMatches u.username username then { u with isAdmin := true } else u)

/-- The function `ensureAdminUser`, with `process.env.ADMIN_USERNAME` and
`process.env.ADMIN_PASSWORD` as its two optional arguments. It returns the
store it leaves and the lines it writes with `console.log`, one for the insert
and one for the update. The probe `SELECT isAdmin FROM User LIMIT 1` fails on
a table without the column, which the function then adds. -/
def ensureAdminUser (st : Store) (hashPassword : String → String)
    (adminUsername adminPassword : Option String) (now : Nat) : Store × List String :=
  match adminUsername, adminPassword with
  | some name, some secret =>
    if name == "" || secret == "" then (st, [])
    else
      let st1 := if st.hasIsAdmin then st else addIsAdminColumn st
      let hash := hashPassword secret
      match findUser st1 name with
      | none =>
        (insertUser st1 name hash true now, ["[Admin] Created admin user: " ++ name])
      | some row =>
        if !row.isAdmin then
          ({ st1 with users := grantAdmin st1.users name },
           ["[Admin] Set admin privilege for: " ++ name])
        else (st1, [])
  | _, _ => (st, [])

/-! ## Routes and the token middleware -/

/-- The middleware `authenticateToken` on the `Authorization` header (`none`
when the request has none): the 401 answer it gives, or `none` when it calls
`next()`. The token is the second piece of the header split at spaces. -/
def authenticateToken (authHeader : Option String) : Option Response :=
  let token : Option String :=
    match authHeader with
    | none => none
    | some header => if header == "" then some "" else (header.splitOn " ").get? 1
  match token with
  | none => some ⟨401, errorBody "未授权，请先登录"⟩
  | some t => if t == "" then some ⟨401, errorBody "未授权，请先登录"⟩ else none

/-- An Express route: the callbacks registered before the handler run in
order on the request, and the first answer one of them gives ends the request
without reaching the handler. -/
def runRoute (middleware : List (Option String → Option Response))
    (authHeader : Option String) (st : Store) (handler : Store × Response) :
    Store × Response :=
  match middleware.findSome? (fun m => m authHeader) with
  | some answer => (st, answer)
  | none => handler

/-- The callbacks registered before the handler in
`app.get('/api/saves/:username/:slot', async (req, res) => ...)` and in the
`app.post` of the same path: none, the handler is the only callback. -/
def saveRouteMiddleware : List (Option String → Option Response) :=
  []

/-- The route `GET /api/saves/:username/:slot` as registered. -/
def getSaveRoute (st : Store) (authHeader : Option String) (username : String)
    (slotNum : Option Int) : Store × Response :=
  runRoute saveRouteMiddleware authHeader st (getSave st username slotNum)

/-- The route `POST /api/saves/:username/:slot` as registered. -/
def postSaveRoute (st : Store) (authHeader : Option String) (username : String)
    (slotNum : Option Int) (saveData : Json) (now : Nat) : Store × Response :=
  runRoute saveRouteMiddleware authHeader st (postSave st username slotNum saveData now)

/-! ## Pooled connections -/

/-- What a handler does with the pool: `pool.getConnection()` and
`conn.release()`. -/
inductive ConnEvent where
  | acquire : ConnEvent
  | release : ConnEvent
deriving DecidableEq, Repr

/-- The pool calls of `POST /api/auth/register`, in order. A request the
validation rejects never reaches `pool.getConnection()`. The `finally` block
releases the connection on every path; the path that adds the missing
`isAdmin` column has released it already, before its `return`. -/
def registerConn (st : Store) (username password : String) : List ConnEvent :=
  match registerValidate (some (.str username)) (some (.str password)) with
  | some _ => []
  | none =>
    match findUser st username with
    | some _ => [.acquire, .release]
    | none =>
      if st.hasIsAdmin then [.acquire, .release]
      else [.acquire, .release, .release]

/-- The pool calls of `POST /api/auth/login`, in order: the `finally` block
holds the only release. -/
def loginConn (username password : String) : List ConnEvent :=
  if falsy (some (.str username)) || falsy (some (.str password)) then []
  else [.acquire, .release]

/-- The number of releases in a sequence of pool calls. -/
def releases (events : List ConnEvent) : Nat :=
  events.count .release

/-- The number of acquisitions in a sequence of pool calls. -/
def acquisitions (events : List ConnEvent) : Nat :=
  events.count .acquire

/-! ## Client panel -/

/-- The two modes of the panel. -/
inductive AuthMode where
  | login : AuthMode
  | register : AuthMode
deriving DecidableEq, Repr

/-- The characters `String.prototype.trim` removes: the white space and line
terminator code points of ECMAScript. -/
def isJsWhitespace (c : Char) : Bool :=
  let n := c.val.toNat
  n == 9 || n == 10 || n == 11 || n == 12 || n == 13 || n == 32 || n == 160
    || n == 5760 || (8192 ≤ n && n ≤ 8202) || n == 8232 || n == 8233 || n == 8239
    || n == 8287 || n == 12288 || n == 65279

/-- The method `trim` of a JavaScript string. -/
def jsTrim (s : String) : String :=
  String.mk (((s.data.dropWhile isJsWhitespace).reverse.dropWhile isJsWhitespace).reverse)

/-- The checks of `handleSubmit` that precede the request: the error the panel
shows, or `none` when it goes on to send the request. `backendConnected` is
the panel's probe result and `backendUrl` the configured `BACKEND_BASE_URL`. -/
def handleSubmitCheck (backendUrl : String) (backendConnected : Option Bool) (mode : AuthMode)
    (username password confirmPassword : String) : Option String :=
  if backendConnected == some false then
    some ("无法连接到后端服务器 (" ++ backendUrl ++ ")。请确保后端服务正在运行。")
  else if jsTrim username == "" || jsTrim password == "" then
    some "请输入用户名和密码"
  else
    match mode with
    | .login => none
    | .register =>
      if password != confirmPassword then some "两次输入的密码不一致"
      else if jsLength password < 6 then some "密码长度至少为 6 个字符"
      else if jsLength username < 3 || jsLength username > 20 then
        some "用户名长度必须在 3-20 个字符之间"
      else none

/-- The body `{ username: username.trim(), password: password }` of the
request, as the pair of its two members. -/
def requestBody (username password : String) : String × String :=
  (jsTrim username, password)

/-- Truthiness of a member that is a string or absent. -/
def present (member : Option String) : Bool :=
  match member with
  | none => false
  | some s => s != ""

/-- The text `detail` that `handleSubmit` shows for a response that is not
`ok`, from the members `error` and `message` of the parsed body (`none` for an
absent member; the backend sends strings in both). -/
def errorDetail (mode : AuthMode) (error message : Option String) : String :=
  if present message && message != error then
    (if present error then error.getD "" else "注册失败") ++ "：" ++ message.getD ""
  else if present error then error.getD ""
  else if present message then message.getD ""
  else (match mode with | .login => "登录" | .register => "注册") ++ "失败"

/-! ## Lemmas on the statements -/

theorem find?_updateSaves (saves : List GameSaveRow) (userId : Nat) (slot : Int)
    (data : Json) (now : Nat) :
    (updateSaves saves userId slot data now).find? (saveMatches userId slot)
      = (saves.find? (saveMatches userId slot)).map
          (fun s => { s with data := data, updatedAt := now }) := by
  induction saves with
  | nil => rfl
  | cons s rest ih =>
    unfold updateSaves at ih ⊢
    by_cases h : saveMatches userId slot s = true
    · have h2 : saveMatches userId slot { s with data := data, updatedAt := now } = true := h
      simp [List.find?, h, h2]
    · simp only [Bool.not_eq_true] at h
      simp [List.find?, h, ih]

theorem find?_append_new {α : Type} (p : α → Bool) (l : List α) (x : α)
    (hl : l.find? p = none) (hx : p x = true) : (l ++ [x]).find? p = some x := by
  simp [List.find?_append, hl, List.find?, hx]

/-- A successful save leaves the looked-up user in place and puts the document
in the first row of the slot. -/
theorem postSave_ok (st : Store) (username : String) (slotNum : Option Int)
    (saveData : Json) (now : Nat)
    (h : (postSave st username slotNum saveData now).2.status = 200) :
    ∃ user slot save, findUser st username = some user ∧ slotNum = some slot ∧
      findUser (postSave st username slotNum saveData now).1 username = some user ∧
      (postSave st username slotNum saveData now).1.saves.find? (saveMatches user.id slot)
        = some save ∧ save.data = saveData ∧ save.updatedAt = now := by
  unfold postSave at h ⊢
  cases hu : findUser st username with
  | none => simp [hu] at h
  | some user =>
    cases slotNum with
    | none => simp [hu] at h
    | some slot =>
      cases hf : st.saves.find? (saveMatches user.id slot) with
      | none =>
        refine ⟨user, slot, ⟨st.nextSaveId, user.id, slot, saveData, now, now⟩, rfl, rfl, ?_⟩
        simp only [hf, Option.isSome_none, Bool.false_eq_true, if_false]
        exact ⟨hu, find?_append_new _ _ ⟨st.nextSaveId, user.id, slot, saveData, now, now⟩ hf
          (by simp [saveMatches]), trivial, trivial⟩
      | some old =>
        refine ⟨user, slot, { old with data := saveData, updatedAt := now }, rfl, rfl, ?_⟩
        simp only [hf, Option.isSome_some, if_true]
        exact ⟨hu, by simp [find?_updateSaves, hf], trivial, trivial⟩

theorem getSave_found (st : Store) (username : String) (slot : Int) (user : UserRow)
    (save : GameSaveRow) (hu : findUser st username = some user)
    (hs : st.saves.find? (saveMatches user.id slot) = some save) :
    (getSave st username (some slot)).2
      = ⟨200, .obj [("success", .bool true), ("data", save.data),
                    ("updatedAt", timeJson save.updatedAt)]⟩ := by
  simp [getSave, hu, hs]

/-! ## Accounts: lemmas -/

theorem jsLength_empty : jsLength "" = 0 := rfl

theorem registerValidate_str (username password : String) :
    registerValidate (some (.str username)) (some (.str password)) = none
      ↔ username ≠ "" ∧ password ≠ "" ∧ 3 ≤ jsLength username ∧ jsLength username ≤ 20
          ∧ 6 ≤ jsLength password := by
  simp only [registerValidate, Json.truthy, lengthLt, lengthGt, Json.length?]
  by_cases hu : username = ""
  · simp [hu]
  · by_cases hp : password = ""
    · simp [hp]
    · by_cases h3 : jsLength username < 3
      · simp [hu, hp, h3]
      · by_cases h20 : 20 < jsLength username
        · simp [hu, hp, h20]
        · by_cases h6 : jsLength password < 6
          · simp [hu, hp, h3, h20, h6]
          · simp [hu, hp, h3, h20, h6]; omega

theorem findUser_addIsAdminColumn_none (st : Store) (username : String)
    (h : findUser st username = none) : findUser (addIsAdminColumn st) username = none := by
  unfold addIsAdminColumn
  by_cases hc : st.hasIsAdmin = true
  · simpa [hc] using h
  · simp only [findUser, List.find?_eq_none] at h ⊢
    simp only [hc, if_false, Bool.false_eq_true]
    intro u hu
    simp only [List.mem_map] at hu
    obtain ⟨v, hv, rfl⟩ := hu
    exact h v hv

theorem findUser_insertUser (st : Store) (username hash : String) (isAdmin : Bool)
    (now : Nat) (h : findUser st username = none) :
    findUser (insertUser st username hash isAdmin now) username
      = some ⟨st.nextUserId, username, hash, isAdmin, now, now⟩ := by
  unfold findUser at h ⊢
  exact find?_append_new _ _ _ h (by simp [usernameMatches])

theorem addIsAdminColumn_hasIsAdmin (st : Store) : (addIsAdminColumn st).hasIsAdmin = true := by
  unfold addIsAdminColumn
  by_cases hc : st.hasIsAdmin = true <;> simp [hc]

theorem addIsAdminColumn_nextUserId (st : Store) :
    (addIsAdminColumn st).nextUserId = st.nextUserId := by
  unfold addIsAdminColumn
  by_cases hc : st.hasIsAdmin = true <;> simp [hc]

theorem addIsAdminColumn_of_has (st : Store) (h : st.hasIsAdmin = true) :
    addIsAdminColumn st = st := by
  simp [addIsAdminColumn, h]

/-- What a 201 answer of register tells: the input passed the validation, the
name was free, and the store and the body are those of the insert. -/
theorem register_created (st : Store) (hashPassword : String → String)
    (token username password : String) (now : Nat)
    (h : (register st hashPassword token username password now).2.status = 201) :
    registerValidate (some (.str username)) (some (.str password)) = none
    ∧ findUser st username = none
    ∧ (register st hashPassword token username password now).1
        = insertUser (addIsAdminColumn st) username (hashPassword password) false now
    ∧ (register st hashPassword token username password now).2
        = ⟨201, registeredBody token username st.nextUserId⟩ := by
  unfold register at h ⊢
  cases hv : registerValidate (some (.str username)) (some (.str password)) with
  | some answer =>
    exfalso
    simp only [hv] at h
    simp only [registerValidate] at hv
    split at hv
    · simp at hv; rw [← hv] at h; simp at h
    · split at hv
      · simp at hv; rw [← hv] at h; simp at h
      · split at hv
        · simp at hv; rw [← hv] at h; simp at h
        · simp at hv
  | none =>
    cases hu : findUser st username with
    | some _ => simp [hv, hu] at h
    | none =>
      by_cases hc : st.hasIsAdmin = true
      · simp [hc, addIsAdminColumn_of_has st hc]
      · simp [hc]

/-- The users of the store a 201 answer leaves: the looked-up row of the new
name is the inserted one. -/
theorem register_created_row (st : Store) (hashPassword : String → String)
    (token username password : String) (now : Nat)
    (h : (register st hashPassword token username password now).2.status = 201) :
    findUser (register st hashPassword token username password now).1 username
        = some ⟨st.nextUserId, username, hashPassword password, false, now, now⟩
    ∧ (register st hashPassword token username password now).1.hasIsAdmin = true := by
  obtain ⟨-, hu, hst, -⟩ := register_created _ _ _ _ _ _ h
  rw [hst]
  constructor
  · rw [findUser_insertUser _ _ _ _ _ (findUser_addIsAdminColumn_none _ _ hu),
      addIsAdminColumn_nextUserId]
  · simp [insertUser, addIsAdminColumn_hasIsAdmin]

theorem registerValidate_status (username password : Option Json) (answer : Response)
    (h : registerValidate username password = some answer) : answer.status = 400 := by
  unfold registerValidate at h
  split at h
  · split at h
    · simp at h; rw [← h]
    · split at h
      · simp at h; rw [← h]
      · split at h
        · simp at h; rw [← h]
        · simp at h
  · simp at h; rw [← h]

theorem findUser_addIsAdminColumn (st : Store) (username : String) :
    findUser (addIsAdminColumn st) username
      = (findUser st username).map
          (fun u => if st.hasIsAdmin then u else { u with isAdmin := false }) := by
  unfold addIsAdminColumn
  by_cases hc : st.hasIsAdmin = true
  · simp [hc]
  · simp only [hc, if_false, Bool.false_eq_true, findUser, List.find?_map]
    rfl

/-- The store the login handler looks the user up in. -/
theorem findUser_login_store (st : Store) (username : String) :
    findUser (if st.hasIsAdmin then st else addIsAdminColumn st) username
      = (findUser st username).map
          (fun u => if st.hasIsAdmin then u else { u with isAdmin := false }) := by
  by_cases hc : st.hasIsAdmin = true
  · simp [hc]
  · simp only [hc, if_false, Bool.false_eq_true]
    rw [findUser_addIsAdminColumn]
    simp [hc]

theorem findUser_none_of_forall (st : Store) (username : String)
    (h : ∀ u ∈ st.users, u.username ≠ username) : findUser st username = none := by
  simp only [findUser, List.find?_eq_none, usernameMatches]
  intro u hu
  simpa using h u hu

/-- With the `isAdmin` column in place the reset handler answers as C4 says:
success needs the looked-up administrator, its digest and its flag, and every
failure of these is the one 403 answer on an unchanged store. -/
theorem adminReset_with_column (st : Store) (hashPassword : String → String)
    (username newPassword adminUsername adminPassword : String) (now : Nat)
    (hcol : st.hasIsAdmin = true)
    (hu : username ≠ "") (hn : newPassword ≠ "") (ha : adminUsername ≠ "")
    (hp : adminPassword ≠ "") (hlen : 6 ≤ jsLength newPassword) :
    ((adminResetPassword st hashPassword username newPassword adminUsername adminPassword
          now).2.status = 200 →
        ∃ admin, findUser st adminUsername = some admin
          ∧ admin.password = hashPassword adminPassword ∧ admin.isAdmin = true)
    ∧ ((∀ admin, findUser st adminUsername = some admin →
          admin.password = hashPassword adminPassword → admin.isAdmin = false) →
        adminResetPassword st hashPassword username newPassword adminUsername adminPassword now
          = (st, ⟨403, errorBody "管理员账号或密码错误，或该账号不是管理员"⟩)) := by
  have hlt : lengthLt (.str newPassword) 6 = false := by
    simp only [lengthLt, Json.length?]
    simp only [decide_eq_false_iff_not, not_lt]
    exact_mod_cast hlen
  unfold adminResetPassword
  simp only [falsy, Json.truthy, hlt, hcol]
  cases hadm : findUser st adminUsername with
  | none => simp [hu, hn, ha, hp]
  | some admin =>
    by_cases hv : hashPassword adminPassword = admin.password
    · by_cases hflag : admin.isAdmin = true
      · constructor
        · intro _
          exact ⟨admin, rfl, hv.symm, hflag⟩
        · intro hall
          have := hall admin rfl hv.symm
          simp [hflag] at this
      · simp [hu, hn, ha, hp, verifyPassword, hv, hflag]
    · constructor
      · intro h
        simp [hu, hn, ha, hp, verifyPassword, hv] at h
      · intro _
        simp [hu, hn, ha, hp, verifyPassword, hv]

/-- On a string password the handler for any JSON password is the handler for
strings. -/
theorem loginBody_str (st : Store) (hashPassword : String → String)
    (token thrown username password : String) :
    loginBody st hashPassword token thrown username (some (.str password))
      = login st hashPassword token username password := by
  unfold loginBody login
  by_cases hv : (falsy (some (.str username)) || falsy (some (.str password))) = true
  · simp only [hv, if_true]
  · simp only [hv, if_false, Bool.false_eq_true]
    cases findUser (if st.hasIsAdmin then st else addIsAdminColumn st) username with
    | none => rfl
    | some user => simp only [Option.bind, hashJson, verifyPassword]

theorem register_taken (st : Store) (hashPassword : String → String)
    (token username password : String) (now : Nat) (row : UserRow)
    (hv : registerValidate (some (.str username)) (some (.str password)) = none)
    (hrow : findUser st username = some row) :
    register st hashPassword token username password now
      = (st, ⟨409, errorBody "用户名已存在"⟩) := by
  unfold register
  simp only [hv, hrow]

/-! ## Monster inventory: lemmas -/

theorem truthy_of_member (v : Json) (key : String) (h : falsy (v.member key) = false) :
    v.truthy = true := by
  cases v <;> simp [Json.member, falsy, Json.truthy] at h ⊢

theorem clientIdMatches_self (monsterData cid : Json)
    (hid : monsterData.member "id" = some cid)
    (hcid : (∃ s, cid = .str s) ∨ (∃ n, cid = .num n)) :
    clientIdMatches (some cid) monsterData = true := by
  rcases hcid with ⟨s, rfl⟩ | ⟨n, rfl⟩ <;> simp [clientIdMatches, hid]

theorem count_updateMonsters (monsters : List MonsterRow) (userId owner : Nat)
    (monsterData : Json) :
    ((updateMonsters monsters userId monsterData).filter (fun m => m.userId == owner)).length
      = (monsters.filter (fun m => m.userId == owner)).length := by
  induction monsters with
  | nil => rfl
  | cons m rest ih =>
    unfold updateMonsters at ih ⊢
    by_cases hm : monsterMatches userId (monsterData.member "id") m = true
    · by_cases ho : (m.userId == owner) = true
      · simp [List.filter, hm, ho, ih]
      · simp only [Bool.not_eq_true] at ho
        simp [List.filter, hm, ho, ih]
    · simp only [Bool.not_eq_true] at hm
      by_cases ho : (m.userId == owner) = true
      · simp [List.filter, hm, ho, ih]
      · simp only [Bool.not_eq_true] at ho
        simp [List.filter, hm, ho, ih]

/-- The store an upsert leaves when the body is complete and the user exists. -/
theorem postMonster_store (st : Store) (username : String) (user : UserRow)
    (monsterData : Json) (now : Nat) (hname : username ≠ "")
    (hu : findUser st username = some user) (hc : carriesNameElement monsterData) :
    (postMonster st username monsterData now).1
      = if (st.monsters.find? (monsterMatches user.id (monsterData.member "id"))).isSome then
          { st with monsters := updateMonsters st.monsters user.id monsterData }
        else
          { st with
              monsters := st.monsters ++ [newMonster st.nextMonsterId user.id monsterData now],
              nextMonsterId := st.nextMonsterId + 1 } := by
  unfold postMonster
  have ht := truthy_of_member _ _ hc.1
  simp only [beq_iff_eq, hname, if_false, ht, hc.1, hc.2, Bool.not_true, Bool.or_self,
    Bool.false_eq_true, hu]
  cases hf : st.monsters.find? (monsterMatches user.id (monsterData.member "id")) <;> simp

theorem postMonster_findUser (st : Store) (username : String) (user : UserRow)
    (monsterData : Json) (now : Nat) (hname : username ≠ "")
    (hu : findUser st username = some user) (hc : carriesNameElement monsterData) :
    findUser (postMonster st username monsterData now).1 username = some user := by
  rw [postMonster_store st username user monsterData now hname hu hc]
  split <;> exact hu

/-- After an upsert with a string or number client id, a row of the user
matches that id. -/
theorem postMonster_has_row (st : Store) (username : String) (user : UserRow)
    (monsterData cid : Json) (now : Nat) (hname : username ≠ "")
    (hu : findUser st username = some user) (hc : carriesNameElement monsterData)
    (hid : monsterData.member "id" = some cid)
    (hcid : (∃ s, cid = .str s) ∨ (∃ n, cid = .num n)) :
    ∃ row ∈ (postMonster st username monsterData now).1.monsters,
      monsterMatches user.id (some cid) row = true := by
  rw [postMonster_store st username user monsterData now hname hu hc]
  have hself := clientIdMatches_self monsterData cid hid hcid
  cases hf : st.monsters.find? (monsterMatches user.id (monsterData.member "id")) with
  | some old =>
    simp only [Option.isSome_some, if_true]
    have hmem := List.mem_of_find?_eq_some hf
    have hp := List.find?_some hf
    refine ⟨_, List.mem_map_of_mem _ hmem, ?_⟩
    simp only [hp, if_true]
    simp only [monsterMatches, Bool.and_eq_true] at hp ⊢
    exact ⟨hp.1, hself⟩
  | none =>
    simp only [Option.isSome_none, Bool.false_eq_true, if_false]
    refine ⟨newMonster st.nextMonsterId user.id monsterData now, by simp, ?_⟩
    simp [monsterMatches, newMonster, hself]

/-! ## Save slots: round trip and unknown user -/

/-- C1. After a successful `POST /api/saves/U/N` with body `D`, the handler
`GET /api/saves/U/N` answers 200 with `data` equal to `D`; after a further
successful write of `D2` to the same user and slot it answers 200 with `D2`. -/
theorem save_round_trip (st : Store) (username : String) (slotNum : Option Int)
    (D D2 : Json) (now now2 : Nat)
    (h1 : (postSave st username slotNum D now).2.status = 200)
    (h2 : (postSave (postSave st username slotNum D now).1 username slotNum D2 now2).2.status
            = 200) :
    (getSave (postSave st username slotNum D now).1 username slotNum).2
        = ⟨200, .obj [("success", .bool true), ("data", D), ("updatedAt", timeJson now)]⟩
    ∧ (getSave (postSave (postSave st username slotNum D now).1 username slotNum D2 now2).1
          username slotNum).2
        = ⟨200, .obj [("success", .bool true), ("data", D2), ("updatedAt", timeJson now2)]⟩ := by
  constructor
  · obtain ⟨user, slot, save, -, hslot, hu, hs, hd, ht⟩ := postSave_ok _ _ _ _ _ h1
    subst hslot
    rw [getSave_found _ _ _ _ _ hu hs, hd, ht]
  · obtain ⟨user, slot, save, -, hslot, hu, hs, hd, ht⟩ := postSave_ok _ _ _ _ _ h2
    subst hslot
    rw [getSave_found _ _ _ _ _ hu hs, hd, ht]

/-- Worked instance of C1: two writes to slot 0 of `alice01` in the sample store. -/
theorem save_round_trip_witness :
    (getSave (postSave sampleStore "alice01" (some 0) (.obj [("level", .num 4)]) 60).1
        "alice01" (some 0)).2
        = ⟨200, .obj [("success", .bool true), ("data", .obj [("level", .num 4)]),
                      ("updatedAt", timeJson 60)]⟩
    ∧ (getSave (postSave (postSave sampleStore "alice01" (some 0)
          (.obj [("level", .num 4)]) 60).1 "alice01" (some 0) (.arr [.num 5]) 70).1
          "alice01" (some 0)).2
        = ⟨200, .obj [("success", .bool true), ("data", .arr [.num 5]),
                      ("updatedAt", timeJson 70)]⟩ :=
  save_round_trip sampleStore "alice01" (some 0) (.obj [("level", .num 4)]) (.arr [.num 5])
    60 70 (by decide) (by decide)

/-- C8. When no user has the given username, `POST /api/saves/:username/:slot`
answers 404 and the store it leaves is the store it found: no `GameSave` row
and no `User` row is created. -/
theorem save_unknown_user (st : Store) (username : String) (slotNum : Option Int)
    (saveData : Json) (now : Nat)
    (h : ∀ u ∈ st.users, u.username ≠ username) :
    (postSave st username slotNum saveData now).2.status = 404
    ∧ (postSave st username slotNum saveData now).1 = st := by
  have hu : findUser st username = none := by
    simp only [findUser, List.find?_eq_none, usernameMatches]
    intro u hu
    simpa using h u hu
  simp [postSave, hu]

/-- Worked instance of C8: a save for `ghost`, who is not in the sample store. -/
theorem save_unknown_user_witness :
    (postSave sampleStore "ghost" (some 1) (.obj []) 60).2.status = 404
    ∧ (postSave sampleStore "ghost" (some 1) (.obj []) 60).1 = sampleStore :=
  save_unknown_user sampleStore "ghost" (some 1) (.obj []) 60 (by decide)

/-! ## Accounts: register, login, reset -/

/-- C2. When `POST /api/auth/register` answers 201, a login with the same
username and password on the resulting store answers 200 with `success`, the
same username and the `userId` that register returned. -/
theorem register_then_login (st : Store) (hashPassword : String → String)
    (token token2 username password : String) (now : Nat)
    (h : (register st hashPassword token username password now).2.status = 201) :
    ∃ userId : Nat,
      (register st hashPassword token username password now).2
        = ⟨201, .obj [("success", .bool true), ("message", .str "注册成功"),
                      ("token", .str token), ("username", .str username),
                      ("userId", .num userId)]⟩
      ∧ (login (register st hashPassword token username password now).1 hashPassword token2
            username password).2
        = ⟨200, .obj [("success", .bool true), ("message", .str "登录成功"),
                      ("token", .str token2), ("username", .str username),
                      ("userId", .num userId), ("isAdmin", .bool false)]⟩ := by
  obtain ⟨hv, -, -, hbody⟩ := register_created _ _ _ _ _ _ h
  obtain ⟨hrow, hcol⟩ := register_created_row _ _ _ _ _ _ h
  obtain ⟨hu, hp, -⟩ := (registerValidate_str username password).mp hv
  refine ⟨st.nextUserId, hbody, ?_⟩
  unfold login
  simp [falsy, Json.truthy, hu, hp, hcol, hrow, verifyPassword]

/-- Worked instance of C2: `bob2024` registers in the sample store and logs in. -/
theorem register_then_login_witness :
    ∃ userId : Nat,
      (register sampleStore sampleHash "t1" "bob2024" "hunter22" 60).2
        = ⟨201, .obj [("success", .bool true), ("message", .str "注册成功"),
                      ("token", .str "t1"), ("username", .str "bob2024"),
                      ("userId", .num userId)]⟩
      ∧ (login (register sampleStore sampleHash "t1" "bob2024" "hunter22" 60).1 sampleHash "t2"
            "bob2024" "hunter22").2
        = ⟨200, .obj [("success", .bool true), ("message", .str "登录成功"),
                      ("token", .str "t2"), ("username", .str "bob2024"),
                      ("userId", .num userId), ("isAdmin", .bool false)]⟩ :=
  register_then_login sampleStore sampleHash "t1" "t2" "bob2024" "hunter22" 60 (by decide)

/-- C3. When `register(u, p1)` answers 201, `register(u, p2)` on the resulting
store, for any valid password `p2`, answers 409 and leaves the store as it
was: no row is added and every row of `u` still holds the digest of `p1`. -/
theorem duplicate_registration (st : Store) (hashPassword : String → String)
    (token token2 username p1 p2 : String) (now now2 : Nat)
    (h1 : (register st hashPassword token username p1 now).2.status = 201)
    (h2 : 6 ≤ jsLength p2) :
    (register (register st hashPassword token username p1 now).1 hashPassword token2
        username p2 now2).2 = ⟨409, errorBody "用户名已存在"⟩
    ∧ (register (register st hashPassword token username p1 now).1 hashPassword token2
        username p2 now2).1 = (register st hashPassword token username p1 now).1
    ∧ ∀ u ∈ (register (register st hashPassword token username p1 now).1 hashPassword token2
        username p2 now2).1.users, u.username = username → u.password = hashPassword p1 := by
  obtain ⟨hv, hfree, hst, -⟩ := register_created _ _ _ _ _ _ h1
  obtain ⟨hrow, -⟩ := register_created_row _ _ _ _ _ _ h1
  obtain ⟨hu, -, h3, h20, -⟩ := (registerValidate_str username p1).mp hv
  have hp2 : p2 ≠ "" := by
    intro h
    rw [h, jsLength_empty] at h2
    omega
  have hv2 : registerValidate (some (.str username)) (some (.str p2)) = none :=
    (registerValidate_str username p2).mpr ⟨hu, hp2, h3, h20, h2⟩
  have hsecond : register (register st hashPassword token username p1 now).1 hashPassword
      token2 username p2 now2
      = ((register st hashPassword token username p1 now).1,
          ⟨409, errorBody "用户名已存在"⟩) :=
    register_taken _ _ _ _ _ _ _ hv2 hrow
  refine ⟨by rw [hsecond], by rw [hsecond], ?_⟩
  rw [hsecond]
  simp only
  rw [hst]
  intro u hmem hname
  have hnone := findUser_addIsAdminColumn_none st username hfree
  simp only [findUser, List.find?_eq_none, usernameMatches] at hnone
  simp only [insertUser, List.mem_append, List.mem_singleton] at hmem
  rcases hmem with hold | hnew
  · have := hnone u hold
    simp [hname] at this
  · rw [hnew]

/-- Worked instance of C3: `bob2024` registers twice with different passwords. -/
theorem duplicate_registration_witness :
    (register (register sampleStore sampleHash "t1" "bob2024" "hunter22" 60).1 sampleHash "t2"
        "bob2024" "another9" 70).2 = ⟨409, errorBody "用户名已存在"⟩
    ∧ (register (register sampleStore sampleHash "t1" "bob2024" "hunter22" 60).1 sampleHash "t2"
        "bob2024" "another9" 70).1 = (register sampleStore sampleHash "t1" "bob2024" "hunter22" 60).1
    ∧ ∀ u ∈ (register (register sampleStore sampleHash "t1" "bob2024" "hunter22" 60).1
        sampleHash "t2" "bob2024" "another9" 70).1.users,
        u.username = "bob2024" → u.password = sampleHash "hunter22" :=
  duplicate_registration sampleStore sampleHash "t1" "t2" "bob2024" "hunter22" "another9" 60 70
    (by decide) (by decide)

/-- C4, the code at the failing input. On a `User` table that lacks the
`isAdmin` column, where no account has the admin flag set, a reset request
that passes the input validation is answered 500 and not 403, although the
login handler repairs the same table before its lookup. -/
theorem adminReset_legacy_table :
    (adminResetPassword legacyStore sampleHash "alice01" "newpass1" "root" "rootpass"
        60).2.status = 500
    ∧ legacyStore.hasIsAdmin = false
    ∧ (login legacyStore sampleHash "t1" "alice01" "secret1").2.status = 200
    ∧ (login legacyStore sampleHash "t1" "alice01" "secret1").1.hasIsAdmin = true := by
  decide

/-- C5 as stated fails: in the sample store `ghost` does not exist and `alice01`
exists; the password 123456, a JSON number, passes the presence test and is
the password of neither, yet the login of `ghost` is answered 401 and the
login of `alice01` is answered 500, so the answer tells that `alice01` exists. -/
theorem login_failure_counterexample :
    findUser sampleStore "ghost" = none
    ∧ (∃ user, findUser sampleStore "alice01" = some user
        ∧ hashJson sampleHash (.num 123456) ≠ some user.password)
    ∧ falsy (some (.num 123456)) = false
    ∧ (loginBody sampleStore sampleHash "t1" sampleTypeError "ghost"
        (some (.num 123456))).2.status = 401
    ∧ (loginBody sampleStore sampleHash "t1" sampleTypeError "alice01"
        (some (.num 123456))).2.status = 500 := by
  refine ⟨by decide, ⟨⟨2, "alice01", sampleHash "secret1", false, 20, 20⟩, by decide, ?_⟩,
    rfl, by decide, by decide⟩
  intro h
  cases h

/-- C5, amended. For a username and a password that are both non-empty JSON
strings, a login with a username that does not exist and a login with an
existing username whose stored digest differs from the hash of the password
get the identical answer: status 401 and the same body. -/
theorem login_failure_same (st : Store) (hashPassword : String → String)
    (token1 token2 u1 p1 u2 p2 : String)
    (hu1 : u1 ≠ "") (hp1 : p1 ≠ "") (hu2 : u2 ≠ "") (hp2 : p2 ≠ "")
    (h1 : ∀ u ∈ st.users, u.username ≠ u1)
    (h2 : ∃ user, findUser st u2 = some user ∧ hashPassword p2 ≠ user.password) :
    (login st hashPassword token1 u1 p1).2 = (login st hashPassword token2 u2 p2).2
    ∧ (login st hashPassword token1 u1 p1).2 = ⟨401, errorBody "用户名或密码错误"⟩ := by
  have hnone := findUser_none_of_forall st u1 h1
  obtain ⟨user, hfound, hdiff⟩ := h2
  have e1 : (login st hashPassword token1 u1 p1).2 = ⟨401, errorBody "用户名或密码错误"⟩ := by
    unfold login
    simp only [falsy, Json.truthy, findUser_login_store, hnone]
    simp [hu1, hp1]
  have e2 : (login st hashPassword token2 u2 p2).2 = ⟨401, errorBody "用户名或密码错误"⟩ := by
    unfold login
    simp only [falsy, Json.truthy, findUser_login_store, hfound]
    by_cases hc : st.hasIsAdmin = true
    · simp [hu2, hp2, hc, verifyPassword, hdiff]
    · simp [hu2, hp2, hc, verifyPassword, hdiff]
  exact ⟨e1.trans e2.symm, e1⟩

/-- Worked instance of C5: an unknown name and a wrong password in the sample store. -/
theorem login_failure_same_witness :
    (login sampleStore sampleHash "t1" "ghost" "guess1").2
      = (login sampleStore sampleHash "t2" "alice01" "wrong99").2
    ∧ (login sampleStore sampleHash "t1" "ghost" "guess1").2
      = ⟨401, errorBody "用户名或密码错误"⟩ :=
  login_failure_same sampleStore sampleHash "t1" "t2" "ghost" "guess1" "alice01" "wrong99"
    (by decide) (by decide) (by decide) (by decide) (by decide)
    ⟨⟨2, "alice01", sampleHash "secret1", false, 20, 20⟩, by decide, by decide⟩

/-- C7 as stated fails: a body whose username is the number 12345 and whose
password is `true` is not answered 400, and neither member is a string of the
required length. -/
theorem register_validation_counterexample :
    registerValidate (some (.num 12345)) (some (.bool true)) = none
    ∧ (∀ s, Json.num 12345 ≠ .str s) ∧ (∀ s, Json.bool true ≠ .str s) := by
  refine ⟨rfl, ?_, ?_⟩ <;> intro s h <;> cases h

/-- C7, amended. For a body whose username and password are JSON strings,
register answers 400 exactly when one of them is empty, or the length of the
username (in UTF-16 code units) is outside 3 to 20, or the length of the
password is below 6; a request it does not answer 400 has a username of
length 3 to 20 and a password of length at least 6. -/
theorem register_validation_strings (st : Store) (hashPassword : String → String)
    (token username password : String) (now : Nat) :
    ((register st hashPassword token username password now).2.status = 400
        ↔ (username = "" ∨ password = "" ∨ jsLength username < 3 ∨ 20 < jsLength username
            ∨ jsLength password < 6))
    ∧ ((register st hashPassword token username password now).2.status ≠ 400
        → 3 ≤ jsLength username ∧ jsLength username ≤ 20 ∧ 6 ≤ jsLength password) := by
  have key : (register st hashPassword token username password now).2.status = 400
      ↔ ¬ registerValidate (some (.str username)) (some (.str password)) = none := by
    unfold register
    cases hv : registerValidate (some (.str username)) (some (.str password)) with
    | some answer => simp [registerValidate_status _ _ _ hv]
    | none =>
      cases hu : findUser st username with
      | some _ => simp
      | none => by_cases hc : st.hasIsAdmin = true <;> simp [hc]
  rw [key, registerValidate_str]
  constructor
  · constructor
    · intro h
      by_contra hcon
      apply h
      simp only [not_or, not_lt] at hcon
      exact ⟨hcon.1, hcon.2.1, hcon.2.2.1, hcon.2.2.2.1, hcon.2.2.2.2⟩
    · rintro (h | h | h | h | h) ⟨a, b, c, d, e⟩
      · exact a h
      · exact b h
      · omega
      · omega
      · omega
  · intro h
    have hv : registerValidate (some (.str username)) (some (.str password)) = none := by
      by_contra hn
      exact h (key.mpr hn)
    have h := (registerValidate_str username password).mp hv
    exact ⟨h.2.2.1, h.2.2.2.1, h.2.2.2.2⟩

/-! ## Monster inventory: upsert and list -/

/-- C6 as stated fails: after two upserts with the client id `m9` the one row
of that id has `NULL` in its description column, while the second body
carries the empty string as its description. -/
theorem monster_upsert_counterexample :
    ((postMonster (postMonster sampleStore "alice01" sampleMonster1 60).1 "alice01"
        sampleMonster2 70).1.monsters.filter (monsterMatches 2 (some (.str "m9")))).map
        (fun m => m.description) = [Json.null]
    ∧ sampleMonster2.member "description" = some (.str "")
    ∧ sampleMonster1.member "id" = sampleMonster2.member "id" := by
  refine ⟨rfl, rfl, rfl⟩

/-- C6, amended. For a user `U` and two bodies that carry name and element and
the same client id (a string or a number), the second upsert leaves the row
count of `U` as the first left it, and a row of that id exists and every such
row holds the name, the element and the data of the second body, and in each
optional column (description, imageUrl, modelUrl, visualPrompt) the value of
the second body when that value is truthy and `NULL` otherwise; an upsert
whose id matches no monster of `U` raises the row count of `U` by one. -/
theorem monster_upsert (st : Store) (username : String) (user : UserRow)
    (B1 B2 cid : Json) (now1 now2 : Nat)
    (hname : username ≠ "") (hu : findUser st username = some user)
    (hc1 : carriesNameElement B1) (hc2 : carriesNameElement B2)
    (hid1 : B1.member "id" = some cid) (hid2 : B2.member "id" = some cid)
    (hcid : (∃ s, cid = .str s) ∨ (∃ n, cid = .num n)) :
    monsterCount (postMonster (postMonster st username B1 now1).1 username B2 now2).1 user.id
        = monsterCount (postMonster st username B1 now1).1 user.id
    ∧ (∃ row ∈ (postMonster (postMonster st username B1 now1).1 username B2 now2).1.monsters,
        monsterMatches user.id (some cid) row = true)
    ∧ (∀ row ∈ (postMonster (postMonster st username B1 now1).1 username B2 now2).1.monsters,
        monsterMatches user.id (some cid) row = true →
          some row.name = B2.member "name" ∧ some row.element = B2.member "element"
          ∧ row.description = orNull (B2.member "description")
          ∧ row.imageUrl = orNull (B2.member "imageUrl")
          ∧ row.modelUrl = orNull (B2.member "modelUrl")
          ∧ row.visualPrompt = orNull (B2.member "visualPrompt")
          ∧ row.data = B2)
    ∧ (∀ (B : Json) (now : Nat), carriesNameElement B →
        (∀ row ∈ st.monsters, monsterMatches user.id (B.member "id") row = false) →
          monsterCount (postMonster st username B now).1 user.id
            = monsterCount st user.id + 1) := by
  have hu1 := postMonster_findUser st username user B1 now1 hname hu hc1
  obtain ⟨r1, hr1mem, hr1⟩ := postMonster_has_row st username user B1 cid now1 hname hu hc1
    hid1 hcid
  have hfind : ((postMonster st username B1 now1).1.monsters.find?
      (monsterMatches user.id (B2.member "id"))).isSome = true := by
    rw [hid2, List.find?_isSome]
    exact ⟨r1, hr1mem, hr1⟩
  have hst2 := postMonster_store (postMonster st username B1 now1).1 username user B2 now2
    hname hu1 hc2
  rw [hfind, if_pos rfl] at hst2
  refine ⟨?_, ?_, ?_, ?_⟩
  · rw [hst2]
    exact count_updateMonsters _ _ _ _
  · exact postMonster_has_row _ username user B2 cid now2 hname hu1 hc2 hid2 hcid
  · intro row hmem hmatch
    rw [hst2] at hmem
    simp only [updateMonsters, List.mem_map] at hmem
    obtain ⟨old, -, hrow⟩ := hmem
    by_cases hold : monsterMatches user.id (B2.member "id") old = true
    · simp only [hold, if_true] at hrow
      have hn : ∃ v, B2.member "name" = some v := by
        cases h : B2.member "name" with
        | none => have := hc2.1; simp [h, falsy] at this
        | some v => exact ⟨v, rfl⟩
      have he : ∃ v, B2.member "element" = some v := by
        cases h : B2.member "element" with
        | none => have := hc2.2; simp [h, falsy] at this
        | some v => exact ⟨v, rfl⟩
      obtain ⟨vn, hvn⟩ := hn
      obtain ⟨ve, hve⟩ := he
      rw [← hrow]
      simp [hvn, hve]
    · simp only [hold, if_false, Bool.false_eq_true] at hrow
      rw [← hrow, ← hid2] at hmatch
      exact absurd hmatch hold
  · intro B now hc hnomatch
    rw [postMonster_store st username user B now hname hu hc]
    have hnone : st.monsters.find? (monsterMatches user.id (B.member "id")) = none := by
      rw [List.find?_eq_none]
      intro row hrow
      simp [hnomatch row hrow]
    simp [hnone, monsterCount, List.filter_append, newMonster]

/-- Worked instance of C6: the two sample bodies for `alice01`, whose id `m9`
is new to the sample store. -/
theorem monster_upsert_witness :
    monsterCount (postMonster (postMonster sampleStore "alice01" sampleMonster1 60).1 "alice01"
        sampleMonster2 70).1 2
        = monsterCount (postMonster sampleStore "alice01" sampleMonster1 60).1 2
    ∧ monsterCount (postMonster sampleStore "alice01" sampleMonster1 60).1 2
        = monsterCount sampleStore 2 + 1 := by
  have h := monster_upsert sampleStore "alice01" ⟨2, "alice01", sampleHash "secret1", false, 20, 20⟩
    sampleMonster1 sampleMonster2 (.str "m9") 60 70 (by decide) (by decide) (by decide)
    (by decide) rfl rfl (Or.inl ⟨"m9", rfl⟩)
  exact ⟨h.1, h.2.2.2 sampleMonster1 60 (by decide) (by decide)⟩

/-- C9 as stated fails: the first monster of `alice01` in the sample store has
a model URL and a visual prompt in its columns, and no element of the list the
handler returns has a `modelUrl` or a `visualPrompt` member. -/
theorem monster_list_counterexample :
    (sampleStore.monsters.map (fun m => (m.userId, m.modelUrl, m.visualPrompt))).head?
        = some (2, .str "sparky.glb", .str "a small spark")
    ∧ (monstersOf (getMonsters sampleStore "alice01").2).length = 2
    ∧ ∀ e ∈ monstersOf (getMonsters sampleStore "alice01").2,
        e.member "modelUrl" = none ∧ e.member "visualPrompt" = none := by
  refine ⟨rfl, by decide, ?_⟩
  simp [monstersOf, getMonsters, findUser, sampleStore, usernameMatches, Json.member,
    selectMonsters, monsterJson, sampleHash, List.insertionSort, List.orderedInsert, newerFirst]

/-- C9, amended. Each element of the `monsters` array returned for a user is
the projection of one of that user's rows: it carries the row's id, name,
element, description, imageUrl, full data and creation timestamp; the columns
modelUrl and visualPrompt are not selected and appear only inside data. -/
theorem monster_list_content (st : Store) (username : String) (user : UserRow)
    (hname : username ≠ "") (hu : findUser st username = some user) :
    ∀ e ∈ monstersOf (getMonsters st username).2,
      ∃ row ∈ st.monsters, row.userId = user.id
        ∧ e.member "id" = some (.num row.id)
        ∧ e.member "name" = some row.name
        ∧ e.member "element" = some row.element
        ∧ e.member "description" = some row.description
        ∧ e.member "imageUrl" = some row.imageUrl
        ∧ e.member "data" = some row.data
        ∧ e.member "createdAt" = some (timeJson row.createdAt)
        ∧ e.member "modelUrl" = none
        ∧ e.member "visualPrompt" = none := by
  intro e he
  have hlist : monstersOf (getMonsters st username).2
      = (selectMonsters st user.id).map monsterJson := by
    simp [getMonsters, hname, hu, monstersOf, Json.member]
  rw [hlist, List.mem_map] at he
  obtain ⟨row, hrow, rfl⟩ := he
  have hperm := List.perm_insertionSort newerFirst
    (st.monsters.filter (fun m => m.userId == user.id))
  have hmem := (hperm.mem_iff).mp hrow
  rw [List.mem_filter] at hmem
  refine ⟨row, hmem.1, by simpa using hmem.2, ?_⟩
  simp [monsterJson, Json.member]

/-- Worked instance of C9: the list of `alice01` in the sample store. -/
theorem monster_list_content_witness :
    findUser sampleStore "alice01" = some ⟨2, "alice01", sampleHash "secret1", false, 20, 20⟩
    ∧ ∀ e ∈ monstersOf (getMonsters sampleStore "alice01").2,
      ∃ row ∈ sampleStore.monsters, row.userId = 2
        ∧ e.member "id" = some (.num row.id)
        ∧ e.member "name" = some row.name
        ∧ e.member "element" = some row.element
        ∧ e.member "description" = some row.description
        ∧ e.member "imageUrl" = some row.imageUrl
        ∧ e.member "data" = some row.data
        ∧ e.member "createdAt" = some (timeJson row.createdAt)
        ∧ e.member "modelUrl" = none
        ∧ e.member "visualPrompt" = none :=
  ⟨by decide,
   monster_list_content sampleStore "alice01" ⟨2, "alice01", sampleHash "secret1", false, 20, 20⟩
    (by decide) (by decide)⟩

/-- C10. For a user `U`, `GET /api/monsters/U` answers 200 with the projections
of exactly the rows whose `userId` is the id of `U` (a rearrangement of them,
none of another user, none missing), in an order along which `createdAt` never
increases; for a username with no user it answers 404. The username is a
route parameter, which is never empty. -/
theorem monster_list_order_scope (st : Store) (username : String) (hname : username ≠ "") :
    (∀ user, findUser st username = some user →
      (getMonsters st username).2.status = 200
      ∧ ∃ rows : List MonsterRow,
          monstersOf (getMonsters st username).2 = rows.map monsterJson
          ∧ rows.Perm (st.monsters.filter (fun m => m.userId == user.id))
          ∧ rows.Pairwise (fun a b => b.createdAt ≤ a.createdAt))
    ∧ ((∀ u ∈ st.users, u.username ≠ username) →
        (getMonsters st username).2.status = 404) := by
  constructor
  · intro user hu
    refine ⟨by simp [getMonsters, hname, hu], selectMonsters st user.id, ?_, ?_, ?_⟩
    · simp [getMonsters, hname, hu, monstersOf, Json.member]
    · exact List.perm_insertionSort _ _
    · exact List.sorted_insertionSort newerFirst _
  · intro h
    simp [getMonsters, hname, findUser_none_of_forall st username h]

/-- Worked instance of C10: the list of `alice01` in the sample store. -/
theorem monster_list_order_scope_witness :
    (∀ user, findUser sampleStore "alice01" = some user →
      (getMonsters sampleStore "alice01").2.status = 200
      ∧ ∃ rows : List MonsterRow,
          monstersOf (getMonsters sampleStore "alice01").2 = rows.map monsterJson
          ∧ rows.Perm (sampleStore.monsters.filter (fun m => m.userId == user.id))
          ∧ rows.Pairwise (fun a b => b.createdAt ≤ a.createdAt))
    ∧ ((∀ u ∈ sampleStore.users, u.username ≠ "alice01") →
        (getMonsters sampleStore "alice01").2.status = 404) :=
  monster_list_order_scope sampleStore "alice01" (by decide)

/-! ## Save slots: uniqueness and frame -/

theorem updateSaves_pairwise (saves : List GameSaveRow) (userId : Nat) (slot : Int)
    (data : Json) (now : Nat) (h : saves.Pairwise (fun a b => ¬ sameSlot a b)) :
    (updateSaves saves userId slot data now).Pairwise (fun a b => ¬ sameSlot a b) := by
  unfold updateSaves
  rw [List.pairwise_map]
  refine h.imp ?_
  intro a b hab
  by_cases ha : saveMatches userId slot a = true <;>
    by_cases hb : saveMatches userId slot b = true <;>
    simpa [ha, hb, sameSlot] using hab

theorem updateSaves_length (saves : List GameSaveRow) (userId : Nat) (slot : Int)
    (data : Json) (now : Nat) :
    (updateSaves saves userId slot data now).length = saves.length := by
  simp [updateSaves]

theorem updateSaves_ids (saves : List GameSaveRow) (userId : Nat) (slot : Int)
    (data : Json) (now : Nat) :
    (updateSaves saves userId slot data now).map (fun s => s.id)
      = saves.map (fun s => s.id) := by
  unfold updateSaves
  rw [List.map_map]
  apply List.map_congr_left
  intro s _
  by_cases hs : saveMatches userId slot s = true <;> simp [hs]

theorem find?_updateSaves_other (saves : List GameSaveRow) (userId userId2 : Nat)
    (slot slot2 : Int) (data : Json) (now : Nat)
    (hne : ¬ (userId2 = userId ∧ slot2 = slot)) :
    (updateSaves saves userId slot data now).find? (saveMatches userId2 slot2)
      = saves.find? (saveMatches userId2 slot2) := by
  induction saves with
  | nil => rfl
  | cons s rest ih =>
    unfold updateSaves at ih ⊢
    by_cases hs : saveMatches userId slot s = true
    · have hold : saveMatches userId2 slot2 s = false := by
        simp only [saveMatches, Bool.and_eq_true, beq_iff_eq] at hs
        simp only [saveMatches, Bool.and_eq_false_iff, beq_eq_false_iff_ne, ne_eq]
        by_contra hcon
        simp only [not_or, not_not] at hcon
        exact hne ⟨hcon.1.symm.trans hs.1, hcon.2.symm.trans hs.2⟩
      have hnew : saveMatches userId2 slot2 { s with data := data, updatedAt := now } = false :=
        hold
      simp [List.find?, hs, hold, hnew, ih]
    · simp only [Bool.not_eq_true] at hs
      by_cases h2 : saveMatches userId2 slot2 s = true
      · simp [List.find?, hs, h2]
      · simp only [Bool.not_eq_true] at h2
        simp [List.find?, hs, h2, ih]

theorem filter_updateSaves_other (saves : List GameSaveRow) (userId : Nat) (slot : Int)
    (data : Json) (now : Nat) :
    (updateSaves saves userId slot data now).filter (fun s => !saveMatches userId slot s)
      = saves.filter (fun s => !saveMatches userId slot s) := by
  induction saves with
  | nil => rfl
  | cons s rest ih =>
    unfold updateSaves at ih ⊢
    by_cases hs : saveMatches userId slot s = true
    · have hnew : saveMatches userId slot { s with data := data, updatedAt := now } = true := hs
      simp [List.filter, hs, hnew, ih]
    · simp only [Bool.not_eq_true] at hs
      simp [List.filter, hs, ih]

/-- C11. If a store holds at most one `GameSave` row for every `(userId,
slot)` pair, the store that `POST /api/saves/:username/:slot` leaves, whatever
its answer, does so too; and a write to a slot that already has a row adds no
row (the rows and their ids stay) and puts the new document in that row. -/
theorem save_slot_unique (st : Store) (username : String) (slotNum : Option Int)
    (saveData : Json) (now : Nat) (h : SlotUnique st) :
    SlotUnique (postSave st username slotNum saveData now).1
    ∧ ∀ user slot old, findUser st username = some user → slotNum = some slot →
        st.saves.find? (saveMatches user.id slot) = some old →
        (postSave st username slotNum saveData now).1.saves.length = st.saves.length
        ∧ (postSave st username slotNum saveData now).1.saves.map (fun s => s.id)
            = st.saves.map (fun s => s.id)
        ∧ (postSave st username slotNum saveData now).1.saves.find? (saveMatches user.id slot)
            = some { old with data := saveData, updatedAt := now } := by
  unfold SlotUnique at h ⊢
  constructor
  · unfold postSave
    cases hu : findUser st username with
    | none => simpa using h
    | some user =>
      cases slotNum with
      | none => simpa using h
      | some slot =>
        cases hf : st.saves.find? (saveMatches user.id slot) with
        | some old =>
          simp only [hf, Option.isSome_some, if_true]
          exact updateSaves_pairwise _ _ _ _ _ h
        | none =>
          simp only [hf, Option.isSome_none, Bool.false_eq_true, if_false]
          rw [List.pairwise_append]
          refine ⟨h, List.pairwise_singleton _ _, ?_⟩
          intro a ha b hb
          rw [List.mem_singleton] at hb
          subst hb
          have hno := (List.find?_eq_none.mp hf) a ha
          intro hsame
          apply hno
          simp only [saveMatches, Bool.and_eq_true, beq_iff_eq]
          exact ⟨hsame.1, hsame.2⟩
  · intro user slot old hu hslot hf
    subst hslot
    unfold postSave
    simp only [hu, hf, Option.isSome_some, if_true]
    exact ⟨updateSaves_length _ _ _ _ _, updateSaves_ids _ _ _ _ _,
      by rw [find?_updateSaves, hf]; rfl⟩

/-- Worked instance of C11: an overwrite of slot 0 of `alice01` in the sample
store, which has one row for that slot. -/
theorem save_slot_unique_witness :
    SlotUnique sampleStore
    ∧ SlotUnique (postSave sampleStore "alice01" (some 0) (.obj [("level", .num 9)]) 60).1
    ∧ (postSave sampleStore "alice01" (some 0) (.obj [("level", .num 9)]) 60).1.saves.length
        = sampleStore.saves.length :=
  ⟨by decide,
   (save_slot_unique sampleStore "alice01" (some 0) (.obj [("level", .num 9)]) 60
      (by decide)).1,
   ((save_slot_unique sampleStore "alice01" (some 0) (.obj [("level", .num 9)]) 60
      (by decide)).2 ⟨2, "alice01", sampleHash "secret1", false, 20, 20⟩ 0
      ⟨1, 2, 0, .obj [("level", .num 3)], 30, 30⟩ (by decide) rfl rfl).1⟩

/-- C16. `POST /api/saves/U/N` leaves the `User` table (and the `Monster`
table) as it was, keeps every `GameSave` row whose `(userId, slot)` is not that
of the write, and a read of any other user's slot or of another slot of `U`
answers after the call exactly what it answered before. -/
theorem save_write_frame (st : Store) (username : String) (slotNum : Option Int)
    (saveData : Json) (now : Nat) :
    (postSave st username slotNum saveData now).1.users = st.users
    ∧ (postSave st username slotNum saveData now).1.monsters = st.monsters
    ∧ ((findUser st username = none ∨ slotNum = none) →
        (postSave st username slotNum saveData now).1 = st)
    ∧ (∀ user slot, findUser st username = some user → slotNum = some slot →
        (postSave st username slotNum saveData now).1.saves.filter
            (fun s => !saveMatches user.id slot s)
          = st.saves.filter (fun s => !saveMatches user.id slot s))
    ∧ (∀ (username2 : String) (slotNum2 : Option Int),
        (∀ user user2 slot, findUser st username = some user →
            findUser st username2 = some user2 → slotNum = some slot →
            slotNum2 = some slot → user2.id ≠ user.id) →
        (getSave (postSave st username slotNum saveData now).1 username2 slotNum2).2
          = (getSave st username2 slotNum2).2) := by
  cases hu : findUser st username with
  | none => simp [postSave, hu]
  | some user =>
    cases slotNum with
    | none => simp [postSave, hu]
    | some slot =>
      cases hf : st.saves.find? (saveMatches user.id slot) with
      | some old =>
        have hst : (postSave st username (some slot) saveData now).1
            = { st with saves := updateSaves st.saves user.id slot saveData now } := by
          simp [postSave, hu, hf]
        rw [hst]
        refine ⟨rfl, rfl, by simp, ?_, ?_⟩
        · intro user' slot' hu' hs'
          simp only [Option.some.injEq] at hu' hs'
          subst hu' hs'
          exact filter_updateSaves_other _ _ _ _ _
        · intro username2 slotNum2 hother
          unfold getSave
          have hfu : findUser { st with saves := updateSaves st.saves user.id slot saveData now }
              username2 = findUser st username2 := rfl
          rw [hfu]
          cases hu2 : findUser st username2 with
          | none => rfl
          | some user2 =>
            cases slotNum2 with
            | none => rfl
            | some slot2 =>
              have hne : ¬ (user2.id = user.id ∧ slot2 = slot) := by
                rintro ⟨hid, hsl⟩
                exact hother user user2 slot rfl hu2 rfl (by rw [hsl]) hid
              simp only [find?_updateSaves_other _ _ _ _ _ _ _ hne]
              cases st.saves.find? (saveMatches user2.id slot2) <;> rfl
      | none =>
        have hst : (postSave st username (some slot) saveData now).1
            = { st with
                  saves := st.saves ++ [⟨st.nextSaveId, user.id, slot, saveData, now, now⟩],
                  nextSaveId := st.nextSaveId + 1 } := by
          simp [postSave, hu, hf]
        rw [hst]
        refine ⟨rfl, rfl, by simp, ?_, ?_⟩
        · intro user' slot' hu' hs'
          simp only [Option.some.injEq] at hu' hs'
          subst hu' hs'
          simp [List.filter_append, saveMatches]
        · intro username2 slotNum2 hother
          unfold getSave
          have hfu : findUser { st with
                  saves := st.saves ++ [⟨st.nextSaveId, user.id, slot, saveData, now, now⟩],
                  nextSaveId := st.nextSaveId + 1 }
              username2 = findUser st username2 := rfl
          rw [hfu]
          cases hu2 : findUser st username2 with
          | none => rfl
          | some user2 =>
            cases slotNum2 with
            | none => rfl
            | some slot2 =>
              have hne : saveMatches user2.id slot2
                  ⟨st.nextSaveId, user.id, slot, saveData, now, now⟩ = false := by
                simp only [saveMatches, Bool.and_eq_false_iff, beq_eq_false_iff_ne, ne_eq]
                by_contra hcon
                simp only [not_or, not_not] at hcon
                exact hother user user2 slot rfl hu2 rfl (by rw [hcon.2]) hcon.1.symm
              simp only [List.find?_append, List.find?, hne]
              cases st.saves.find? (saveMatches user2.id slot2) <;> rfl

/-- Worked instance of C16: a write to slot 1 of `alice01` in the sample store
leaves her slot 0 reading as before. -/
theorem save_write_frame_witness :
    (postSave sampleStore "alice01" (some 1) (.obj [("level", .num 1)]) 60).1.users
        = sampleStore.users
    ∧ (getSave (postSave sampleStore "alice01" (some 1) (.obj [("level", .num 1)]) 60).1
          "alice01" (some 0)).2 = (getSave sampleStore "alice01" (some 0)).2
    ∧ (getSave sampleStore "alice01" (some 0)).2.status = 200 :=
  ⟨(save_write_frame sampleStore "alice01" (some 1) (.obj [("level", .num 1)]) 60).1,
   (save_write_frame sampleStore "alice01" (some 1) (.obj [("level", .num 1)])
      60).2.2.2.2 "alice01" (some 0) (by
        intro user user2 slot _ _ h1 h0
        simp only [Option.some.injEq] at h1 h0
        omega),
   by decide⟩

/-! ## Admin bootstrap -/

theorem find?_grantAdmin (users : List UserRow) (name : String) :
    (grantAdmin users name).find? (fun u => usernameMatches u.username name)
      = (users.find? (fun u => usernameMatches u.username name)).map
          (fun u => { u with isAdmin := true }) := by
  induction users with
  | nil => rfl
  | cons u rest ih =>
    unfold grantAdmin at ih ⊢
    by_cases hu : usernameMatches u.username name = true
    · simp [List.find?, hu]
    · simp only [Bool.not_eq_true] at hu
      simp [List.find?, hu, ih]

theorem repaired_hasIsAdmin (st : Store) :
    (if st.hasIsAdmin then st else addIsAdminColumn st).hasIsAdmin = true := by
  by_cases hc : st.hasIsAdmin = true
  · simp [hc]
  · simp only [hc, if_false, Bool.false_eq_true]
    exact addIsAdminColumn_hasIsAdmin st

/-- A store that has the column and whose looked-up administrator has the flag
is left alone by the bootstrap, which then writes no line. -/
theorem ensureAdminUser_settled (st : Store) (hashPassword : String → String)
    (name secret : String) (now : Nat) (row : UserRow)
    (hcol : st.hasIsAdmin = true) (hrow : findUser st name = some row)
    (hflag : row.isAdmin = true) :
    ensureAdminUser st hashPassword (some name) (some secret) now = (st, []) := by
  unfold ensureAdminUser
  by_cases hempty : (name == "" || secret == "") = true
  · simp [hempty]
  · simp [hempty, hcol, hrow, hflag]

/-- C12. For a configured admin username and password, a first run of
`ensureAdminUser` leaves a user of that name whose admin flag is set (on a
table that has the column), and a second run on the store so produced changes
nothing: it returns that store and performs neither the insert nor the
update (it writes neither of their log lines). -/
theorem ensureAdminUser_idempotent (st : Store) (hashPassword : String → String)
    (name secret : String) (now now2 : Nat) (hn : name ≠ "") (hs : secret ≠ "") :
    (∃ row, findUser (ensureAdminUser st hashPassword (some name) (some secret) now).1 name
        = some row ∧ row.isAdmin = true)
    ∧ (ensureAdminUser st hashPassword (some name) (some secret) now).1.hasIsAdmin = true
    ∧ ensureAdminUser (ensureAdminUser st hashPassword (some name) (some secret) now).1
        hashPassword (some name) (some secret) now2
      = ((ensureAdminUser st hashPassword (some name) (some secret) now).1, []) := by
  have first : (∃ row, findUser (ensureAdminUser st hashPassword (some name) (some secret)
        now).1 name = some row ∧ row.isAdmin = true)
      ∧ (ensureAdminUser st hashPassword (some name) (some secret) now).1.hasIsAdmin = true := by
    unfold ensureAdminUser
    have hne : (name == "" || secret == "") = false := by simp [hn, hs]
    simp only [hne, Bool.false_eq_true, if_false]
    have hcol := repaired_hasIsAdmin st
    generalize (if st.hasIsAdmin then st else addIsAdminColumn st) = st1 at hcol ⊢
    cases hf : findUser st1 name with
    | none =>
      simp only
      exact ⟨⟨_, findUser_insertUser st1 name _ true now hf, rfl⟩, by simpa [insertUser] using hcol⟩
    | some row =>
      by_cases hflag : row.isAdmin = true
      · simp only [hflag, Bool.not_true, Bool.false_eq_true, if_false]
        exact ⟨⟨row, hf, hflag⟩, hcol⟩
      · simp only [Bool.not_eq_true] at hflag
        simp only [hflag, Bool.not_false, if_true]
        refine ⟨⟨{ row with isAdmin := true }, ?_, rfl⟩, hcol⟩
        unfold findUser at hf ⊢
        simp only [find?_grantAdmin, hf, Option.map_some']
  obtain ⟨⟨row, hrow, hflag⟩, hcol⟩ := first
  exact ⟨⟨row, hrow, hflag⟩, hcol, ensureAdminUser_settled _ _ _ _ _ row hcol hrow hflag⟩

/-- Worked instance of C12: the bootstrap for `alice01`, who is in the sample
store without the flag, run twice. -/
theorem ensureAdminUser_idempotent_witness :
    (ensureAdminUser sampleStore sampleHash (some "alice01") (some "secret1") 60).2
        = ["[Admin] Set admin privilege for: alice01"]
    ∧ (∃ row, findUser (ensureAdminUser sampleStore sampleHash (some "alice01")
          (some "secret1") 60).1 "alice01" = some row ∧ row.isAdmin = true)
    ∧ ensureAdminUser (ensureAdminUser sampleStore sampleHash (some "alice01")
          (some "secret1") 60).1 sampleHash (some "alice01") (some "secret1") 70
      = ((ensureAdminUser sampleStore sampleHash (some "alice01") (some "secret1") 60).1, []) :=
  ⟨by decide,
   (ensureAdminUser_idempotent sampleStore sampleHash "alice01" "secret1" 60 70
      (by decide) (by decide)).1,
   (ensureAdminUser_idempotent sampleStore sampleHash "alice01" "secret1" 60 70
      (by decide) (by decide)).2.2⟩

/-! ## Token middleware and the save routes -/

/-- C13, the code at the failing input. A request without an `Authorization`
header would be answered 401 by `authenticateToken`, but the two save routes
are registered without it: the read answers 200 with the stored document and
the write answers 200 and adds a row. -/
theorem save_routes_without_token :
    authenticateToken none = some ⟨401, errorBody "未授权，请先登录"⟩
    ∧ (getSaveRoute sampleStore none "alice01" (some 0)).2
        = ⟨200, .obj [("success", .bool true), ("data", .obj [("level", .num 3)]),
                      ("updatedAt", timeJson 30)]⟩
    ∧ (postSaveRoute sampleStore none "alice01" (some 1) (.obj [("level", .num 1)]) 60).2.status
        = 200
    ∧ (postSaveRoute sampleStore none "alice01" (some 1) (.obj [("level", .num 1)])
        60).1.saves.length = sampleStore.saves.length + 1 := by
  refine ⟨rfl, rfl, by decide, by decide⟩

/-! ## Pooled connections -/

/-- On a table that has the `isAdmin` column every path of register and every
path of login releases the connection it acquired exactly once. -/
theorem conn_released_once (st : Store) (username password : String)
    (hcol : st.hasIsAdmin = true) :
    (registerConn st username password = []
        ∨ registerConn st username password = [.acquire, .release])
    ∧ (loginConn username password = [] ∨ loginConn username password = [.acquire, .release]) := by
  constructor
  · unfold registerConn
    cases registerValidate (some (.str username)) (some (.str password)) with
    | some _ => exact Or.inl rfl
    | none =>
      cases findUser st username with
      | some _ => exact Or.inr rfl
      | none => simp [hcol]
  · unfold loginConn
    by_cases h : (falsy (some (.str username)) || falsy (some (.str password))) = true
    · simp [h]
    · simp [h]

/-- C15, the code at the failing input. A valid registration of a free name on
a `User` table that lacks the `isAdmin` column is answered 201 on the recovery
path, which releases the connection before its `return` and again in the
`finally` block: one acquisition, two releases. -/
theorem register_recovery_releases_twice :
    (register legacyStore sampleHash "t1" "bob2024" "hunter22" 60).2.status = 201
    ∧ registerConn legacyStore "bob2024" "hunter22" = [.acquire, .release, .release]
    ∧ acquisitions (registerConn legacyStore "bob2024" "hunter22") = 1
    ∧ releases (registerConn legacyStore "bob2024" "hunter22") = 2 := by
  decide

/-! ## Client panel -/

/-- C14 as stated fails: for the body `{error: "注册失败", message: "Connection
lost"}` of a 500 answer the panel shows a text that is neither member. -/
theorem error_detail_counterexample :
    errorDetail .register (some "注册失败") (some "Connection lost")
        = "注册失败：Connection lost"
    ∧ errorDetail .register (some "注册失败") (some "Connection lost") ≠ "注册失败"
    ∧ errorDetail .register (some "注册失败") (some "Connection lost") ≠ "Connection lost" := by
  decide

/-- C14, amended. For a response that is not `ok` and whose body carries a
non-empty `error`, in either mode: when the body has no `message`, an empty
one, or one equal to `error`, the text shown is exactly the `error` member;
when it carries a different non-empty `message`, the text is the `error`
member, a full-width colon and the `message` member, both unmodified. -/
theorem error_detail_server_text (mode : AuthMode) (message : Option String) (e : String)
    (he : e ≠ "") :
    ((present message = false ∨ message = some e) → errorDetail mode (some e) message = e)
    ∧ (∀ m, message = some m → m ≠ "" → m ≠ e →
        errorDetail mode (some e) message = e ++ "：" ++ m) := by
  have hpe : present (some e) = true := by simp [present, he]
  constructor
  · rintro (h | h)
    · simp [errorDetail, h, hpe]
    · simp [errorDetail, h, hpe]
  · intro m hm hne hdiff
    subst hm
    simp [errorDetail, present, he, hne, hdiff]

/-- Worked instance of C14: the 409 answer of register and a 500 answer of login. -/
theorem error_detail_server_text_witness :
    errorDetail .register (some "用户名已存在") none = "用户名已存在"
    ∧ errorDetail .login (some "登录失败") (some "Connection lost")
        = "登录失败" ++ "：" ++ "Connection lost" :=
  ⟨(error_detail_server_text .register none "用户名已存在" (by decide)).1 (Or.inl rfl),
   (error_detail_server_text .login (some "Connection lost") "登录失败" (by decide)).2
      "Connection lost" rfl (by decide) (by decide)⟩

/-- A body that passes the validation is not answered 400. -/
theorem register_not_400 (st : Store) (hashPassword : String → String)
    (token username password : String) (now : Nat)
    (hv : registerValidate (some (.str username)) (some (.str password)) = none) :
    (register st hashPassword token username password now).2.status ≠ 400 := by
  unfold register
  simp only [hv]
  cases findUser st username with
  | some _ => simp
  | none => by_cases hc : st.hasIsAdmin = true <;> simp [hc]

/-- A form that passes the client checks in register mode and whose username
has no white space at its ends is sent as a body the server does not answer
with 400. -/
theorem client_server_agree_trimmed (st : Store) (hashPassword : String → String)
    (token backendUrl : String) (backendConnected : Option Bool)
    (username password confirmPassword : String) (now : Nat)
    (htrim : jsTrim username = username)
    (hpass : handleSubmitCheck backendUrl backendConnected .register username password
      confirmPassword = none) :
    (register st hashPassword token (requestBody username password).1
      (requestBody username password).2 now).2.status ≠ 400 := by
  unfold handleSubmitCheck at hpass
  by_cases hb : (backendConnected == some false) = true
  · simp [hb] at hpass
  · simp only [hb, if_false, Bool.false_eq_true] at hpass
    by_cases ht : (jsTrim username == "" || jsTrim password == "") = true
    · simp [ht] at hpass
    · simp only [ht, if_false, Bool.false_eq_true] at hpass
      by_cases hc : (password != confirmPassword) = true
      · simp [hc] at hpass
      · simp only [hc, if_false, Bool.false_eq_true] at hpass
        by_cases h6 : jsLength password < 6
        · simp [h6] at hpass
        · by_cases h3 : (decide (jsLength username < 3) || decide (jsLength username > 20)) = true
          · simp [h6, h3] at hpass
          · have hu : username ≠ "" := by
              intro h
              rw [htrim, h] at ht
              simp at ht
            have hp : password ≠ "" := by
              intro h
              rw [h, jsLength_empty] at h6
              omega
            simp only [Bool.or_eq_true, decide_eq_true_eq, not_or, not_lt, gt_iff_lt] at h3
            have hv := (registerValidate_str username password).mpr
              ⟨hu, hp, h3.1, h3.2, by omega⟩
            simp only [requestBody, htrim]
            exact register_not_400 st hashPassword token username password now hv

/-- C17, the code at the failing input. The form with username `ab` followed by
three spaces and a matching password of seven characters passes the client
checks, which measure the username as typed (five characters); the body sent
carries the trimmed username `ab`, which the server answers with 400. -/
theorem client_server_validation_gap :
    handleSubmitCheck "http://localhost:4000" (some true) .register "ab   " "secret1" "secret1"
        = none
    ∧ requestBody "ab   " "secret1" = ("ab", "secret1")
    ∧ (register sampleStore sampleHash "t1" (requestBody "ab   " "secret1").1
        (requestBody "ab   " "secret1").2 60).2.status = 400 := by
  decide

end Backend
